import Mathlib

/-!
Verification of the authentication token lifecycle of the RuralRise
training-platform repository.

Server side, the embedding follows `backend/src/utils/jwt.ts`,
`backend/src/services/auth.service.ts`, `backend/src/middleware/auth.ts`,
`backend/src/middleware/validation.ts` and `backend/src/routes/auth.routes.ts`.
Client side it follows `src/services/apiClient.ts` (axios interceptors and
`authService`) and the `AuthProvider` context component.

JSON web tokens are modelled as structured values: `jwt.sign` packs the
payload, the signing secret, and the expiry into a `Tok`; `jwt.verify`
checks the secret and the expiry.  A signing nonce stands for the issue
timestamp that makes distinct signing events produce distinct token
strings.  Times are a single `Nat` clock.
-/

namespace RuralRise

/-- Error shape of `AppError` / `sendError`: a message and an HTTP status. -/
structure AppError where
  message : String
  statusCode : Nat
deriving DecidableEq, Repr

/-- A signed JWT, as produced by `jwt.sign` in `utils/jwt.ts`: payload
fields `userId`, `role`, `type`, the secret it was signed with, the
expiry claim, and a signing nonce standing for the issue instant. -/
structure Tok where
  userId : String
  role : String
  typ : String
  secret : Nat
  exp : Nat
  nonce : Nat
deriving DecidableEq, Repr

/-- Decoded token payload (`TokenPayload` in `utils/jwt.ts`). -/
structure TokenPayload where
  userId : String
  role : String
deriving DecidableEq, Repr

def accessSecret : Nat := 0

def refreshSecret : Nat := 1

/-- Access-token TTL in seconds (`parseExpiryToSeconds` default: 30 min). -/
def accessTtl : Nat := 1800

/-- Refresh-token JWT TTL (7 days, `config.jwt.refreshExpiresIn`). -/
def refreshTtl : Nat := 604800

/-- Registry-record expiry window: `refreshExpiry.setDate(getDate() + 7)`. -/
def sevenDays : Nat := 604800

/-- `generateAccessToken`: sign `{userId, role, type: "access"}` with the
access secret and the access TTL. -/
def generateAccessToken (userId role : String) (now nonce : Nat) : Tok :=
  ⟨userId, role, "access", accessSecret, now + accessTtl, nonce⟩

/-- `generateRefreshToken`: sign `{userId, role, type: "refresh"}` with the
refresh secret and the refresh TTL. -/
def generateRefreshToken (userId role : String) (now nonce : Nat) : Tok :=
  ⟨userId, role, "refresh", refreshSecret, now + refreshTtl, nonce⟩

/-- `verifyRefreshToken`: `jwt.verify(token, config.jwt.refreshSecret)` —
succeeds iff the token was signed with the refresh secret and its expiry
claim has not passed. -/
def verifyRefreshToken (t : Tok) (now : Nat) : Option TokenPayload :=
  if t.secret = refreshSecret ∧ now < t.exp then some ⟨t.userId, t.role⟩ else none

/-- `verifyAccessToken`: `jwt.verify(token, config.jwt.secret)`. -/
def verifyAccessToken (t : Tok) (now : Nat) : Option TokenPayload :=
  if t.secret = accessSecret ∧ now < t.exp then some ⟨t.userId, t.role⟩ else none

/-- Result of `generateTokenPair` in `utils/jwt.ts`. -/
structure TokenPair where
  accessToken : Tok
  refreshToken : Tok
  expiresIn : Nat
  refreshExpiresIn : Nat
deriving DecidableEq, Repr

/-- `generateTokenPair(userId, role)`: mint the access token, then the
refresh token (two signing events, hence two consecutive nonces), and
report the parsed TTLs. -/
def generateTokenPair (userId role : String) (now nonce : Nat) : TokenPair :=
  { accessToken := generateAccessToken userId role now nonce
    refreshToken := generateRefreshToken userId role now (nonce + 1)
    expiresIn := accessTtl
    refreshExpiresIn := refreshTtl }

/-- A row of the Prisma `refreshToken` table: `{token, userId, expiresAt}`.
The `token` column carries a unique constraint. -/
structure RTRecord where
  token : Tok
  userId : String
  expiresAt : Nat
deriving DecidableEq, Repr

/-- A row of the Prisma `user` table (the fields the auth service reads). -/
structure UserRec where
  id : String
  email : String
  passwordHash : String
  role : String
deriving DecidableEq, Repr

/-- The server-side database plus the signing clock's nonce counter:
`users` and `store` are the Prisma `user` and `refreshToken` tables;
`nextNonce` is the next fresh signing nonce. -/
structure ServerState where
  users : List UserRec
  store : List RTRecord
  nextNonce : Nat
deriving DecidableEq, Repr

/-- `hashPassword` (`utils/password.ts`): bcrypt modelled as an injective
tagging of the plaintext. -/
def hashPassword (pw : String) : String := "bcrypt$" ++ pw

/-- `verifyPassword(password, hash)`: bcrypt compare. -/
def verifyPassword (pw hash : String) : Bool := hash == hashPassword pw

def invalidRefreshErr : AppError := ⟨"Invalid refresh token", 401⟩

def expiredRefreshErr : AppError := ⟨"Refresh token expired or invalid", 401⟩

def invalidCredsErr : AppError := ⟨"Invalid email or password", 401⟩

/-- `authService.login` (auth.service.ts lines 87-139): look the user up by
email; absent → throw `invalidCredsErr`; wrong password → throw the same
error.  On success generate a token pair and insert a refresh-token row
(expiry now + 7 days).  The state is returned alongside the outcome; a
throw happens before any write, so on error the state is the input state.
(The success path's `profile.lastActiveAt` touch is outside the modelled
tables.) -/
def login (st : ServerState) (email password : String) (now : Nat) :
    ServerState × Except AppError (UserRec × TokenPair) :=
  match st.users.find? (fun u => u.email == email) with
  | none => (st, .error invalidCredsErr)
  | some user =>
    if verifyPassword password user.passwordHash then
      let tokens := generateTokenPair user.id user.role now st.nextNonce
      let newRec : RTRecord := ⟨tokens.refreshToken, user.id, now + sevenDays⟩
      ({ st with store := st.store ++ [newRec], nextNonce := st.nextNonce + 2 },
       .ok (user, tokens))
    else (st, .error invalidCredsErr)

/-- `authService.logout` (auth.service.ts lines 141-145):
`prisma.refreshToken.deleteMany({ where: { token } })`. -/
def logoutService (st : ServerState) (v : Tok) : ServerState :=
  { st with store := st.store.filter (fun r => r.token != v) }

/-- `authService.refreshTokens` (auth.service.ts lines 147-190): verify the
JWT (else 401 "Invalid refresh token"); `findUnique` the row by token
value; missing or expired row → 401 "Refresh token expired or invalid";
then `delete` the old row (by its id — the unique token constraint makes
deleting by token value the same row), `generateTokenPair`, and `create`
the new row. -/
def refreshTokens (st : ServerState) (refreshToken : Tok) (now : Nat) :
    Except AppError (ServerState × TokenPair) :=
  match verifyRefreshToken refreshToken now with
  | none => .error invalidRefreshErr
  | some payload =>
    match st.store.find? (fun r => r.token == refreshToken) with
    | none => .error expiredRefreshErr
    | some storedToken =>
      if storedToken.expiresAt < now then .error expiredRefreshErr
      else
        let deleted := st.store.filter (fun r => r.token != refreshToken)
        let tokens := generateTokenPair payload.userId payload.role now st.nextNonce
        let newRec : RTRecord := ⟨tokens.refreshToken, payload.userId, now + sevenDays⟩
        .ok ({ st with store := deleted ++ [newRec], nextNonce := st.nextNonce + 2 },
             tokens)

/-- Whether a refresh-token value is honored against a given table state:
the row lookup and expiry test that `refreshTokens` applies
(`!storedToken || storedToken.expiresAt < new Date()` fails it). -/
def validates (store : List RTRecord) (v : Tok) (now : Nat) : Bool :=
  match store.find? (fun r => r.token == v) with
  | none => false
  | some r => !(r.expiresAt < now)

/-- The sequence of `refreshToken`-table states a successful run of
`refreshTokens` passes through: the initial table, the table after the
`delete` await, and the table after the `create` await.  `none` when the
run fails (a failing run never writes). -/
def rotateTrace (st : ServerState) (refreshToken : Tok) (now : Nat) :
    Option (List (List RTRecord)) :=
  match verifyRefreshToken refreshToken now with
  | none => none
  | some payload =>
    match st.store.find? (fun r => r.token == refreshToken) with
    | none => none
    | some storedToken =>
      if storedToken.expiresAt < now then none
      else
        let deleted := st.store.filter (fun r => r.token != refreshToken)
        let tokens := generateTokenPair payload.userId payload.role now st.nextNonce
        some [st.store, deleted,
              deleted ++ [⟨tokens.refreshToken, payload.userId, now + sevenDays⟩]]

/-- The refresh-token value a successful rotation of `v` inserts. -/
def rotNewToken (st : ServerState) (v : Tok) (now : Nat) : Tok :=
  (generateTokenPair v.userId v.role now st.nextNonce).refreshToken

/-- Store well-formedness: every stored token was minted by a past signing
event, i.e. carries a nonce below the fresh-nonce counter.  Holds for
every state reachable from an empty store through the service operations. -/
def wfStore (st : ServerState) : Bool :=
  st.store.all (fun r => r.token.nonce < st.nextNonce)

/-- Outcome of a middleware filter: call `next()` or answer with
`sendError(res, message, statusCode, errorName)`. -/
inductive GateOutcome where
  | next
  | fail (message : String) (statusCode : Nat) (errorName : String)
deriving DecidableEq, Repr

/-- The slice of the Express request the role filter touches: the
`req.user` payload the Auth Gate attached (or `none` if it did not run). -/
structure ServReq where
  user : Option TokenPayload
deriving DecidableEq, Repr

/-- `requireRole(...roles)` (middleware/auth.ts lines 41-55): missing
`req.user` → 401 Unauthorized; role not in the allowed list → 403
Forbidden; otherwise `next()`.  The request is returned unchanged. -/
def requireRole (roles : List String) (req : ServReq) : ServReq × GateOutcome :=
  match req.user with
  | none => (req, .fail "Authentication required" 401 "Unauthorized")
  | some u =>
    if roles.contains u.role then (req, .next)
    else (req, .fail "Insufficient permissions" 403 "Forbidden")

/-- Zod's complaint when `refreshSchema.parse` sees a body without the
required `refreshToken` key, as joined by `validateBody`. -/
def validationErr : AppError := ⟨"refreshToken: Required", 400⟩

/-- The inputs of `POST /auth/refresh`: the `refreshToken` http-only
cookie, and the `refreshToken` field of the JSON body (tokens are
nonempty strings, so a present field passes `z.string().min(1)`). -/
structure RefreshReq where
  cookieToken : Option Tok
  bodyToken : Option Tok
deriving DecidableEq, Repr

/-- Success payload of `POST /auth/refresh`: `{accessToken, expiresIn}`
plus the rotated refresh token set as the new cookie. -/
structure RefreshOk where
  accessToken : Tok
  expiresIn : Nat
  setCookie : Tok
deriving DecidableEq, Repr

/-- `POST /auth/refresh` (auth.routes.ts lines 94-120).  The route is
`router.post('/refresh', validateBody(refreshSchema), handler)`:
`validateBody` parses `req.body` against `refreshSchema` first, and a body
without `refreshToken` is answered 400 before the handler runs.  The
handler then takes `req.cookies?.refreshToken || req.body.refreshToken`
(its own `if (!refreshToken)` guard is unreachable after validation),
calls `authService.refreshTokens`, sets the rotated cookie and responds
`{accessToken, expiresIn}`. -/
def refreshRoute (st : ServerState) (req : RefreshReq) (now : Nat) :
    ServerState × Except AppError RefreshOk :=
  match req.bodyToken with
  | none => (st, .error validationErr)
  | some bodyTok =>
    let refreshToken := match req.cookieToken with
      | some c => c
      | none => bodyTok
    match refreshTokens st refreshToken now with
    | .error e => (st, .error e)
    | .ok (st2, tokens) =>
      (st2, .ok ⟨tokens.accessToken, tokens.expiresIn, tokens.refreshToken⟩)

/-- The inputs of `POST /auth/logout`: cookie and/or body token (this
route has no validation middleware). -/
structure LogoutReq where
  cookieToken : Option Tok
  bodyToken : Option Tok
deriving DecidableEq, Repr

/-- Response of `POST /auth/logout`: the success message and the cleared
cookie. -/
structure LogoutOk where
  message : String
  cookieCleared : Bool
deriving DecidableEq, Repr

/-- `POST /auth/logout` (auth.routes.ts lines 79-92): take
`req.cookies?.refreshToken || req.body.refreshToken`; if present, call
`authService.logout`; then always clear the cookie and send success. -/
def logoutRoute (st : ServerState) (req : LogoutReq) :
    ServerState × Except AppError LogoutOk :=
  match req.cookieToken with
  | some c => (logoutService st c, .ok ⟨"Logged out successfully", true⟩)
  | none =>
    match req.bodyToken with
    | some v => (logoutService st v, .ok ⟨"Logged out successfully", true⟩)
    | none => (st, .ok ⟨"Logged out successfully", true⟩)

/-! ## Client side

`src/services/apiClient.ts` and the `AuthProvider` context.  Browser
`localStorage` is a string-keyed key/value store; on the wire the client
handles tokens only as strings. -/

/-- `localStorage`, newest binding first. -/
abbrev Storage := List (String × String)

/-- `VITE_AUTH_TOKEN_KEY` fallback. -/
def authTokenKey : String := "ruralrise_auth_token"

/-- `VITE_REFRESH_TOKEN_KEY` fallback. -/
def refreshTokenKey : String := "ruralrise_refresh_token"

/-- `localStorage.getItem`. -/
def getItem (k : String) (s : Storage) : Option String :=
  (s.find? (fun p => p.fst == k)).map (fun p => p.snd)

/-- `localStorage.setItem`. -/
def setItem (k v : String) (s : Storage) : Storage :=
  (k, v) :: s.filter (fun p => p.fst != k)

/-- `localStorage.removeItem`. -/
def removeItem (k : String) (s : Storage) : Storage :=
  s.filter (fun p => p.fst != k)

/-- The `AuthTokens` pair a login/signup response carries. -/
structure AuthTokens where
  accessToken : String
  refreshToken : String
deriving DecidableEq, Repr

/-- The storage effect of `authService.login` / `authService.signup`
(apiClient.ts lines 199-207 and 221-229): store the access token under
the auth key, then the refresh token under the refresh key. -/
def storeTokensOnAuth (tokens : AuthTokens) (s : Storage) : Storage :=
  setItem refreshTokenKey tokens.refreshToken (setItem authTokenKey tokens.accessToken s)

/-- The failure body the server sent (the `APIError` envelope). -/
structure APIErrorM where
  error : String
  message : String
  statusCode : Nat
deriving DecidableEq, Repr

/-- An axios error with a response: HTTP status plus the `APIError` body. -/
structure HttpErr where
  status : Nat
  data : APIErrorM
deriving DecidableEq, Repr

/-- The slice of an axios request config the interceptor touches: the
`_retry` marker and the `Authorization` header. -/
structure ClientReq where
  url : String
  retry : Bool
  authHeader : Option String
deriving DecidableEq, Repr

/-- What the response interceptor's error handler does with one failed
request: re-issue it (`return apiClient(originalRequest)`), reject with
the refresh error (after clearing tokens and redirecting), or reject with
the pass-through `apiError`. -/
inductive Outcome where
  | retried (r : ClientReq)
  | rejectRefresh
  | rejectApi (e : APIErrorM)
deriving DecidableEq, Repr

/-- Client-global mutable state the interceptor reads and writes:
`localStorage`, how many `POST /auth/refresh` calls have been issued, and
whether `window.location.href = '/login'` happened. -/
structure ClientState where
  storage : Storage
  refreshCalls : Nat
  redirectedToLogin : Bool
deriving DecidableEq, Repr

/-- The response interceptor's error handler (apiClient.ts lines 68-135),
for one failed request.  `refreshResponse k` is the server's answer to
the `k`-th refresh call: `some accessToken` on success, `none` when the
call fails.  A 401 on a request not yet marked `_retry` sets the marker,
reads the refresh token from `localStorage` (absent → throw, caught
below), posts its own refresh call, stores the new access token and
re-issues the request; any throw in that block clears both stored tokens
and redirects to `/login`.  Everything else rejects with the pass-through
`apiError` built from the response body. -/
def handle401 (st : ClientState) (r : ClientReq) (err : HttpErr)
    (refreshResponse : Nat → Option String) : ClientState × Outcome :=
  if err.status == 401 && !r.retry then
    let r1 : ClientReq := { r with retry := true }
    match getItem refreshTokenKey st.storage with
    | none =>
      ({ st with storage := removeItem refreshTokenKey (removeItem authTokenKey st.storage),
                 redirectedToLogin := true },
       .rejectRefresh)
    | some _ =>
      match refreshResponse st.refreshCalls with
      | some accessToken =>
        ({ st with storage := setItem authTokenKey accessToken st.storage,
                   refreshCalls := st.refreshCalls + 1 },
         .retried { r1 with authHeader := some ("Bearer " ++ accessToken) })
      | none =>
        ({ st with storage := removeItem refreshTokenKey (removeItem authTokenKey st.storage),
                   refreshCalls := st.refreshCalls + 1,
                   redirectedToLogin := true },
         .rejectRefresh)
  else
    (st, .rejectApi err.data)

/-- Run the error handlers of a batch of concurrently failed requests, in
event-loop arrival order (each handler runs its storage reads, its own
refresh post and its storage writes before the next one's take effect; no
shared guard exists between them in the source, so the refresh-call count
is the same under every interleaving). -/
def processFailures (st : ClientState) (rqs : List (ClientReq × HttpErr))
    (refreshResponse : Nat → Option String) : ClientState × List Outcome :=
  match rqs with
  | [] => (st, [])
  | (r, e) :: rest =>
    ((processFailures (handle401 st r e refreshResponse).fst rest refreshResponse).fst,
     (handle401 st r e refreshResponse).snd ::
       (processFailures (handle401 st r e refreshResponse).fst rest refreshResponse).snd)

/-- `authService.logout` (apiClient.ts lines 237-245): `try` the network
revoke call, `finally` remove both stored tokens.  There is no `catch`,
so the result records whether an error escapes to the caller. -/
def authServiceLogout (networkOk : Bool) (s : Storage) : Storage × Bool :=
  (removeItem refreshTokenKey (removeItem authTokenKey s), !networkOk)

/-- `AuthProvider` state: `{user, isLoading, error}` plus the storage the
service layer mutates. -/
structure SessionState where
  user : Option String
  isLoading : Bool
  error : Option String
  storage : Storage
deriving DecidableEq, Repr

/-- `AuthProvider.logout`: set loading, clear the error, `try`
`authService.logout()` `catch` log it `finally` set `user = null` and stop
loading.  The second component records whether an error escapes to the
caller of `logout()`. -/
def providerLogout (networkOk : Bool) (st : SessionState) : SessionState × Bool :=
  ({ user := none, isLoading := false, error := none,
     storage := (authServiceLogout networkOk st.storage).fst }, false)

/-! ## Concrete example states used by witnesses and counterexamples -/

/-- A refresh token minted at time 0 for user `u1`. -/
def exRT : Tok := generateRefreshToken "u1" "LEARNER" 0 0

/-- A server whose registry holds exactly the row for `exRT`. -/
def exSrv : ServerState := ⟨[], [⟨exRT, "u1", 604800⟩], 1⟩

/-- The refresh token a rotation of `exRT` at time 10 inserts. -/
def exNewRT : Tok := ⟨"u1", "LEARNER", "refresh", 1, 604810, 2⟩

/-- The server state after rotating `exRT` at time 10. -/
def exSrv2 : ServerState := ⟨[], [⟨exNewRT, "u1", 604810⟩], 3⟩

/-- The pair returned by rotating `exRT` at time 10. -/
def exPair : TokenPair :=
  ⟨⟨"u1", "LEARNER", "access", 0, 1810, 1⟩, exNewRT, 1800, 604800⟩

/-- A refresh endpoint that always succeeds, answering access token `newAcc`. -/
def exF : Nat → Option String := fun _ => some "newAcc"

/-- Client storage holding an (expired) access token and a refresh token. -/
def exC : ClientState := ⟨[(authTokenKey, "oldAcc"), (refreshTokenKey, "rt1")], 0, false⟩

def exReq1 : ClientReq := ⟨"/api/a", false, some "Bearer oldAcc"⟩

def exReq2 : ClientReq := ⟨"/api/b", false, some "Bearer oldAcc"⟩

/-- The 401 failure both in-flight requests receive at token expiry. -/
def exErr : HttpErr := ⟨401, ⟨"Unauthorized", "Invalid or expired token", 401⟩⟩

/-- `Except.ok`-ness of a route result. -/
def exceptOk {α : Type} : Except AppError α → Bool
  | .ok _ => true
  | .error _ => false

/-! ## Storage lemmas -/

theorem find?_fst_filter_self (s : List (String × String)) (k : String) :
    (s.filter (fun p => p.fst != k)).find? (fun p => p.fst == k) = none := by
  induction s with
  | nil => rfl
  | cons a s ih =>
    by_cases h : a.fst = k
    · simp [List.filter_cons, h, ih]
    · simp [List.filter_cons, h, List.find?_cons, ih]

theorem find?_fst_filter_ne (s : List (String × String)) (k k' : String) (h : k ≠ k') :
    (s.filter (fun p => p.fst != k')).find? (fun p => p.fst == k) =
      s.find? (fun p => p.fst == k) := by
  have hne : (k' == k) = false := beq_eq_false_iff_ne.mpr (fun he => h he.symm)
  induction s with
  | nil => rfl
  | cons a s ih =>
    by_cases ha : a.fst = k'
    · have hdrop : (a.fst != k') = false := by simp [ha]
      have hak : (a.fst == k) = false := by rw [ha]; exact hne
      simp [List.filter_cons, hdrop, List.find?_cons, hak, ih]
    · have hkeep : (a.fst != k') = true := by simp [ha]
      cases hak : (a.fst == k) with
      | true => simp [List.filter_cons, hkeep, List.find?_cons, hak]
      | false => simp [List.filter_cons, hkeep, List.find?_cons, hak, ih]

theorem getItem_setItem_self (k v : String) (s : Storage) :
    getItem k (setItem k v s) = some v := by
  simp [getItem, setItem, List.find?_cons]

theorem getItem_setItem_ne (k k' v : String) (s : Storage) (h : k ≠ k') :
    getItem k (setItem k' v s) = getItem k s := by
  have hne : (k' == k) = false := beq_eq_false_iff_ne.mpr (fun he => h he.symm)
  simp only [getItem, setItem, List.find?_cons, hne]
  rw [find?_fst_filter_ne s k k' h]

theorem getItem_removeItem_self (k : String) (s : Storage) :
    getItem k (removeItem k s) = none := by
  simp only [getItem, removeItem, find?_fst_filter_self]
  rfl

theorem getItem_removeItem_ne (k k' : String) (s : Storage) (h : k ≠ k') :
    getItem k (removeItem k' s) = getItem k s := by
  simp only [getItem, removeItem]
  rw [find?_fst_filter_ne s k k' h]

theorem authKey_ne_refreshKey : authTokenKey ≠ refreshTokenKey := by decide

/-! ## C4 — where the client keeps the refresh token -/

/-- C4 (counterexample): the client-side `authService.login` writes the
refresh token to the client's own persisted key/value storage — after a
login that returned the pair `("acc1", "ref1")` into empty storage, the
refresh key holds `"ref1"`, contradicting "never written to the client's
persisted storage". -/
theorem login_writes_refresh_token_to_storage :
    getItem refreshTokenKey (storeTokensOnAuth ⟨"acc1", "ref1"⟩ []) = some "ref1" ∧
    getItem refreshTokenKey (storeTokensOnAuth ⟨"acc1", "ref1"⟩ []) ≠ none := by
  exact ⟨rfl, by decide⟩

/-- C4 (amended): on login/signup the client persists BOTH tokens in its
key/value storage — the access token under the auth key and the refresh
token under the refresh key. -/
theorem client_persists_both_tokens (tks : AuthTokens) (s : Storage) :
    getItem authTokenKey (storeTokensOnAuth tks s) = some tks.accessToken ∧
    getItem refreshTokenKey (storeTokensOnAuth tks s) = some tks.refreshToken := by
  unfold storeTokensOnAuth
  constructor
  · rw [getItem_setItem_ne _ _ _ _ authKey_ne_refreshKey]
    exact getItem_setItem_self _ _ _
  · exact getItem_setItem_self _ _ _

/-! ## C7 — logout is locally unconditional -/

/-- C7: for every invocation of the session manager's logout — whether or
not the network revoke call succeeds — no error escapes to the caller,
the user state is cleared, and both persisted tokens are removed. -/
theorem logout_locally_unconditional (networkOk : Bool) (st : SessionState) :
    (providerLogout networkOk st).snd = false ∧
    (providerLogout networkOk st).fst.user = none ∧
    getItem authTokenKey (providerLogout networkOk st).fst.storage = none ∧
    getItem refreshTokenKey (providerLogout networkOk st).fst.storage = none := by
  refine ⟨rfl, rfl, ?_, ?_⟩
  · show getItem authTokenKey
      (removeItem refreshTokenKey (removeItem authTokenKey st.storage)) = none
    rw [getItem_removeItem_ne _ _ _ authKey_ne_refreshKey]
    exact getItem_removeItem_self _ _
  · exact getItem_removeItem_self _ _

/-! ## C8 — the role gate -/

/-- C8: for a request that passed the Auth Gate (a decoded payload is
attached), `requireRole` fails with 403 Forbidden exactly when the
attached role is not in the allowed list, and it returns the request
unchanged. -/
theorem requireRole_forbidden_iff (roles : List String) (req : ServReq)
    (u : TokenPayload) (h : req.user = some u) :
    (requireRole roles req).fst = req ∧
    ((requireRole roles req).snd =
        GateOutcome.fail "Insufficient permissions" 403 "Forbidden" ↔
      roles.contains u.role = false) := by
  cases hc : roles.contains u.role with
  | true =>
    have hm : u.role ∈ roles := by simpa using hc
    refine ⟨?_, ?_⟩ <;> simp [requireRole, h, hm]
  | false =>
    have hm : ¬ u.role ∈ roles := by simpa using hc
    refine ⟨?_, ?_⟩ <;> simp [requireRole, h, hm]

/-- C8 witness: a trainer-only endpoint rejects an authenticated learner
with Forbidden and passes an authenticated trainer through. -/
theorem requireRole_forbidden_iff_witness :
    (requireRole ["TRAINER"] ⟨some ⟨"u9", "LEARNER"⟩⟩).fst = ⟨some ⟨"u9", "LEARNER"⟩⟩ ∧
    ((requireRole ["TRAINER"] ⟨some ⟨"u9", "LEARNER"⟩⟩).snd =
        GateOutcome.fail "Insufficient permissions" 403 "Forbidden" ↔
      (["TRAINER"].contains "LEARNER") = false) :=
  requireRole_forbidden_iff ["TRAINER"] ⟨some ⟨"u9", "LEARNER"⟩⟩ ⟨"u9", "LEARNER"⟩ rfl

/-! ## C9 — revocation is idempotent -/

/-- C9: `authService.logout` (the registry's revoke) is idempotent —
revoking a value twice leaves the store exactly as one revocation does
(so revoking an already-gone token changes nothing and is no error) —
and the logout endpoint responds success whatever the request held. -/
theorem revoke_idempotent (st : ServerState) (v : Tok) (req : LogoutReq) :
    logoutService (logoutService st v) v = logoutService st v ∧
    (logoutRoute st req).snd = .ok ⟨"Logged out successfully", true⟩ := by
  constructor
  · simp [logoutService, List.filter_filter]
  · cases hc : req.cookieToken with
    | some c => simp [logoutRoute, hc]
    | none =>
      cases hb : req.bodyToken with
      | some b => simp [logoutRoute, hc, hb]
      | none => simp [logoutRoute, hc, hb]

/-! ## C10 — the refresh endpoint and cookie-only requests -/

/-- C10: a request presenting a valid refresh token only through the
cookie (no `refreshToken` body field) is rejected 400 by
`validateBody(refreshSchema)` before the handler's
`req.cookies?.refreshToken || req.body.refreshToken` logic can run — the
registry state is untouched; the very same token in the body makes the
same call succeed, showing the validation middleware, not the token, is
what rejects it. -/
theorem refresh_cookie_only_rejected_by_validation :
    refreshRoute exSrv ⟨some exRT, none⟩ 10 = (exSrv, .error validationErr) ∧
    exceptOk (refreshRoute exSrv ⟨some exRT, some exRT⟩ 10).snd = true :=
  ⟨rfl, rfl⟩

/-! ## C1 — the client refresh is not single-flight -/

/-- C1 (counterexample): two protected requests failing 401 concurrently
while a refresh token is stored lead the interceptor to issue TWO calls
to the refresh endpoint, not the single coalesced call the claim
requires. -/
theorem two_concurrent_401s_trigger_two_refresh_calls :
    (processFailures exC [(exReq1, exErr), (exReq2, exErr)] exF).fst.refreshCalls = 2 ∧
    (processFailures exC [(exReq1, exErr), (exReq2, exErr)] exF).fst.refreshCalls ≠ 1 := by
  exact ⟨rfl, by decide⟩

/-- C1 (amended): there is no single-flight coalescing — each 401-failing
request not yet marked `_retry` issues its own refresh call, so N
concurrently failing protected requests produce exactly N refresh calls
(when the refresh endpoint answers them successfully); each request is
still retried at most once. -/
theorem no_single_flight_refresh (st : ClientState)
    (rqs : List (ClientReq × HttpErr)) (f : Nat → Option String)
    (hrt : getItem refreshTokenKey st.storage ≠ none)
    (hfresh : ∀ p ∈ rqs, p.1.retry = false ∧ p.2.status = 401)
    (hf : ∀ k, f k ≠ none) :
    (processFailures st rqs f).fst.refreshCalls = st.refreshCalls + rqs.length := by
  induction rqs generalizing st with
  | nil => simp [processFailures]
  | cons q rest ih =>
    obtain ⟨r, e⟩ := q
    obtain ⟨hr, he⟩ := hfresh (r, e) (by simp)
    obtain ⟨rt, hrt'⟩ := Option.ne_none_iff_exists'.mp hrt
    obtain ⟨a, ha⟩ := Option.ne_none_iff_exists'.mp (hf st.refreshCalls)
    have hh : handle401 st r e f =
        ({ st with storage := setItem authTokenKey a st.storage,
                   refreshCalls := st.refreshCalls + 1 },
         .retried { r with retry := true, authHeader := some ("Bearer " ++ a) }) := by
      unfold handle401
      rw [he, hr, hrt', ha]
      simp
    have hrt2 : getItem refreshTokenKey (setItem authTokenKey a st.storage) ≠ none := by
      rw [getItem_setItem_ne _ _ _ _ (fun hk => authKey_ne_refreshKey hk.symm)]
      rw [hrt']
      simp
    have := ih { st with storage := setItem authTokenKey a st.storage,
                         refreshCalls := st.refreshCalls + 1 }
      hrt2 (fun p hp => hfresh p (by simp [hp]))
    simp only [processFailures, hh] at this ⊢
    rw [this]
    simp [Nat.add_assoc, Nat.add_comm 1 rest.length]

/-- C1 amended-claim witness: with two concurrently failing fresh
requests and a stored refresh token, the refresh-call count grows by
exactly the number of failing requests. -/
theorem no_single_flight_refresh_witness :
    (processFailures exC [(exReq1, exErr), (exReq2, exErr)] exF).fst.refreshCalls =
      exC.refreshCalls + 2 := by
  have h := no_single_flight_refresh exC [(exReq1, exErr), (exReq2, exErr)] exF
    (by decide) (by decide) (fun k => by simp [exF])
  simpa using h

/-! ## C5 — at most one retry per request -/

/-- C5: the `_retry` marker guarantees at most one retry per request —
whatever request the interceptor re-issues after a refresh carries
`_retry = true`, and when such a request fails again (401 or otherwise)
the handler starts no refresh cycle, changes no client state, and rejects
with the pass-through error built from that failure's own response. -/
theorem retried_request_never_refreshes_again
    (st st1 st2 : ClientState) (r r2 : ClientReq) (e e2 : HttpErr)
    (f f2 : Nat → Option String)
    (h : handle401 st r e f = (st1, .retried r2)) :
    handle401 st2 r2 e2 f2 = (st2, .rejectApi e2.data) := by
  have hr2 : r2.retry = true := by
    unfold handle401 at h
    by_cases hg : (e.status == 401 && !r.retry) = true
    · rw [if_pos hg] at h
      cases hget : getItem refreshTokenKey st.storage with
      | none => rw [hget] at h; simp at h
      | some rt =>
        rw [hget] at h
        cases hfc : f st.refreshCalls with
        | none => rw [hfc] at h; simp at h
        | some a =>
          rw [hfc] at h
          simp only [Prod.mk.injEq, Outcome.retried.injEq] at h
          rw [← h.2]
    · rw [if_neg hg] at h
      simp at h
  unfold handle401
  have hcond : (e2.status == 401 && !r2.retry) = false := by
    rw [hr2]; simp
  rw [hcond]
  simp

/-- The client state after the first request's successful refresh cycle. -/
def exC1 : ClientState := ⟨[(authTokenKey, "newAcc"), (refreshTokenKey, "rt1")], 1, false⟩

/-- The re-issued form of `exReq1`: marked `_retry`, new bearer header. -/
def exReq1R : ClientReq := ⟨"/api/a", true, some "Bearer newAcc"⟩

/-- C5 witness: the concrete request re-issued after a refresh, failing
401 again, is rejected with that failure's error and triggers nothing. -/
theorem retried_request_never_refreshes_again_witness :
    handle401 exC1 exReq1R exErr exF = (exC1, .rejectApi exErr.data) :=
  retried_request_never_refreshes_again exC exC1 exC1 exReq1 exReq1R exErr exErr exF exF rfl

/-! ## C6 — credential indistinguishability -/

/-- C6: a login with an unknown email and a login with a wrong password
for an existing email fail with the same error value — same message
"Invalid email or password", same 401 status — and neither changes the
server state. -/
theorem login_credential_indistinguishability
    (st : ServerState) (e1 p1 e2 p2 : String) (u : UserRec) (now1 now2 : Nat)
    (h1 : st.users.find? (fun x => x.email == e1) = none)
    (h2 : st.users.find? (fun x => x.email == e2) = some u)
    (h3 : verifyPassword p2 u.passwordHash = false) :
    login st e1 p1 now1 = (st, .error invalidCredsErr) ∧
    login st e2 p2 now2 = (st, .error invalidCredsErr) := by
  constructor
  · simp [login, h1]
  · simp [login, h2, h3]

/-- A server knowing one user `a@x.com` with password `correct`. -/
def exSrvU : ServerState :=
  ⟨[⟨"u1", "a@x.com", hashPassword "correct", "LEARNER"⟩], [], 0⟩

/-- C6 witness: unknown email `b@x.com` and wrong password for `a@x.com`
produce the identical error and leave the state untouched. -/
theorem login_credential_indistinguishability_witness :
    login exSrvU "b@x.com" "whatever" 0 = (exSrvU, .error invalidCredsErr) ∧
    login exSrvU "a@x.com" "wrong" 0 = (exSrvU, .error invalidCredsErr) :=
  login_credential_indistinguishability exSrvU "b@x.com" "whatever" "a@x.com" "wrong"
    ⟨"u1", "a@x.com", hashPassword "correct", "LEARNER"⟩ 0 0 rfl rfl rfl

/-! ## Registry lemmas for rotation -/

theorem find?_token_filter (l : List RTRecord) (v : Tok) :
    (l.filter (fun r => r.token != v)).find? (fun r => r.token == v) = none := by
  induction l with
  | nil => rfl
  | cons a l ih =>
    by_cases h : a.token = v
    · have hdrop : (a.token != v) = false := by simp [h]
      simp [List.filter_cons, hdrop, ih]
    · have hkeep : (a.token != v) = true := by simp [h]
      have hak : (a.token == v) = false := beq_eq_false_iff_ne.mpr h
      simp [List.filter_cons, hkeep, List.find?_cons, hak, ih]

theorem find?_append_none {α : Type} (p : α → Bool) (l1 l2 : List α)
    (h1 : l1.find? p = none) (h2 : l2.find? p = none) :
    (l1 ++ l2).find? p = none := by
  induction l1 with
  | nil => simpa using h2
  | cons a l ih =>
    cases ha : p a with
    | true => simp [List.find?_cons, ha] at h1
    | false =>
      simp only [List.find?_cons, ha] at h1
      simp only [List.cons_append, List.find?_cons, ha]
      exact ih h1

/-! ## C2 — rotation invalidates its predecessor -/

/-- C2: after a successful rotation of `v` (the old row deleted as the
new one is created), presenting the same value `v` again — at any later
instant at which its JWT signature still verifies — fails with the 401
"Refresh token expired or invalid" replay-detection error. -/
theorem rotate_invalidates_predecessor
    (st st2 : ServerState) (v : Tok) (now now2 : Nat) (tp : TokenPair)
    (hwf : wfStore st = true)
    (hok : refreshTokens st v now = .ok (st2, tp))
    (hjwt : now2 < v.exp) :
    refreshTokens st2 v now2 = .error expiredRefreshErr := by
  unfold refreshTokens at hok
  cases hv : verifyRefreshToken v now with
  | none => rw [hv] at hok; cases hok
  | some payload =>
    rw [hv] at hok
    cases hf : st.store.find? (fun r => r.token == v) with
    | none => rw [hf] at hok; cases hok
    | some stored =>
      rw [hf] at hok
      dsimp only at hok
      by_cases hexp : stored.expiresAt < now
      · rw [if_pos hexp] at hok; cases hok
      · rw [if_neg hexp] at hok
        simp only [Except.ok.injEq, Prod.mk.injEq] at hok
        obtain ⟨hst2, _⟩ := hok
        subst hst2
        have hsec : v.secret = refreshSecret ∧ now < v.exp := by
          by_cases hc : v.secret = refreshSecret ∧ now < v.exp
          · exact hc
          · unfold verifyRefreshToken at hv
            rw [if_neg hc] at hv
            cases hv
        have hv2 : verifyRefreshToken v now2 = some ⟨v.userId, v.role⟩ := by
          unfold verifyRefreshToken
          rw [if_pos ⟨hsec.1, hjwt⟩]
        have hmem := List.mem_of_find?_eq_some hf
        have htok : stored.token = v := by simpa using List.find?_some hf
        unfold wfStore at hwf
        have hnonce : v.nonce < st.nextNonce := by
          have h := List.all_eq_true.mp hwf stored hmem
          rw [htok] at h
          exact of_decide_eq_true h
        have hnewne :
            (((generateTokenPair payload.userId payload.role now st.nextNonce).refreshToken
              == v)) = false := by
          apply beq_eq_false_iff_ne.mpr
          intro heq
          have h := congrArg Tok.nonce heq
          simp [generateTokenPair, generateRefreshToken] at h
          omega
        have hfind2 :
            ((st.store.filter (fun r => r.token != v)) ++
              [(⟨(generateTokenPair payload.userId payload.role now st.nextNonce).refreshToken,
                 payload.userId, now + sevenDays⟩ : RTRecord)]).find?
              (fun r => r.token == v) = none := by
          apply find?_append_none
          · exact find?_token_filter st.store v
          · simp [List.find?_cons, hnewne]
        unfold refreshTokens
        rw [hv2]
        dsimp only
        rw [hfind2]

/-- C2 witness: rotating the concrete token `exRT` at time 10 succeeds,
and rotating `exRT` again at time 20 answers the replay error. -/
theorem rotate_invalidates_predecessor_witness :
    refreshTokens exSrv2 exRT 20 = .error expiredRefreshErr :=
  rotate_invalidates_predecessor exSrv exSrv2 exRT 10 20 exPair (by decide) rfl (by decide)

/-! ## C3 — rotation is not one atomic unit -/

/-- C3 (counterexample): the successful rotation of `exRT` at time 10
passes through the intermediate table state `[]` — after the `delete`
await, before the `create` await — and in that state NEITHER the old
token `exRT` nor its replacement validates, contradicting "no state in
which neither validates". -/
theorem rotate_has_window_where_neither_validates :
    rotateTrace exSrv exRT 10 =
      some [[⟨exRT, "u1", 604800⟩], [], [⟨exNewRT, "u1", 604810⟩]] ∧
    ([] : List RTRecord) ∈ [[⟨exRT, "u1", 604800⟩], [], [⟨exNewRT, "u1", 604810⟩]] ∧
    validates [] exRT 10 = false ∧
    validates [] (rotNewToken exSrv exRT 10) 10 = false :=
  ⟨rfl, by simp, rfl, rfl⟩

/-- C3 (amended): the delete and the insert are two separate steps, so
half of the claimed atomicity holds and half fails — in no state of a
rotation do the old and the new token both validate (proved here), but
there IS an intermediate state, between the delete and the insert, in
which neither validates (the counterexample). -/
theorem rotate_no_state_validates_both
    (st : ServerState) (v : Tok) (now : Nat) (tr : List (List RTRecord))
    (s : List RTRecord)
    (hwf : wfStore st = true)
    (htr : rotateTrace st v now = some tr)
    (hs : s ∈ tr) :
    ¬(validates s v now = true ∧ validates s (rotNewToken st v now) now = true) := by
  unfold rotateTrace at htr
  cases hv : verifyRefreshToken v now with
  | none => rw [hv] at htr; cases htr
  | some payload =>
    rw [hv] at htr
    cases hf : st.store.find? (fun r => r.token == v) with
    | none => rw [hf] at htr; cases htr
    | some stored =>
      rw [hf] at htr
      dsimp only at htr
      by_cases hexp : stored.expiresAt < now
      · rw [if_pos hexp] at htr; cases htr
      · rw [if_neg hexp] at htr
        simp only [Option.some.injEq] at htr
        have hpay : payload = ⟨v.userId, v.role⟩ := by
          by_cases hc : v.secret = refreshSecret ∧ now < v.exp
          · unfold verifyRefreshToken at hv
            rw [if_pos hc] at hv
            exact ((Option.some.injEq _ _).mp hv).symm
          · unfold verifyRefreshToken at hv
            rw [if_neg hc] at hv
            cases hv
        subst hpay
        subst htr
        have hmem := List.mem_of_find?_eq_some hf
        have htok : stored.token = v := by simpa using List.find?_some hf
        unfold wfStore at hwf
        have hall := List.all_eq_true.mp hwf
        have hnonce : v.nonce < st.nextNonce := by
          have h := hall stored hmem
          rw [htok] at h
          exact of_decide_eq_true h
        have hnewnonce : (rotNewToken st v now).nonce = st.nextNonce + 1 := rfl
        have hnewne : ((rotNewToken st v now) == v) = false := by
          apply beq_eq_false_iff_ne.mpr
          intro heq
          have h := congrArg Tok.nonce heq
          rw [hnewnonce] at h
          omega
        have hstore_new :
            st.store.find? (fun r => r.token == rotNewToken st v now) = none := by
          apply List.find?_eq_none.mpr
          intro r hr
          have h := of_decide_eq_true (hall r hr)
          intro heq
          have heq2 : r.token = rotNewToken st v now := eq_of_beq heq
          have h2 := congrArg Tok.nonce heq2
          rw [hnewnonce] at h2
          omega
        simp only [List.mem_cons, List.not_mem_nil, or_false] at hs
        rcases hs with hs | hs | hs
        · subst hs
          intro hboth
          have : validates st.store (rotNewToken st v now) now = false := by
            unfold validates
            rw [hstore_new]
          rw [this] at hboth
          cases hboth.2
        · subst hs
          intro hboth
          have : validates (st.store.filter (fun r => r.token != v)) v now = false := by
            unfold validates
            rw [find?_token_filter]
          rw [this] at hboth
          cases hboth.1
        · subst hs
          intro hboth
          have hfind :
              ((st.store.filter (fun r => r.token != v)) ++
                [(⟨(generateTokenPair v.userId v.role now st.nextNonce).refreshToken,
                   v.userId, now + sevenDays⟩ : RTRecord)]).find?
                (fun r => r.token == v) = none := by
            apply find?_append_none
            · exact find?_token_filter st.store v
            · simp only [List.find?_cons]
              rw [show ((generateTokenPair v.userId v.role now st.nextNonce).refreshToken == v)
                    = false from hnewne]
              rfl
          have : validates ((st.store.filter (fun r => r.token != v)) ++
              [(⟨(generateTokenPair v.userId v.role now st.nextNonce).refreshToken,
                 v.userId, now + sevenDays⟩ : RTRecord)]) v now = false := by
            unfold validates
            rw [hfind]
          rw [this] at hboth
          cases hboth.1

/-- C3 amended-claim witness: along the concrete rotation trace of
`exRT`, its middle state validates old and new simultaneously in no way. -/
theorem rotate_no_state_validates_both_witness :
    ¬(validates ([] : List RTRecord) exRT 10 = true ∧
      validates ([] : List RTRecord) (rotNewToken exSrv exRT 10) 10 = true) :=
  rotate_no_state_validates_both exSrv exRT 10
    [[⟨exRT, "u1", 604800⟩], [], [⟨exNewRT, "u1", 604810⟩]] [] (by decide) rfl (by simp)

end RuralRise
